import Mathlib

/-!
# OTP bot (`src/index.js`): shallow embedding and verification

The file embeds the three HTTP handlers of `src/index.js` (`/send-otp`,
`/verify-otp`, `/send-message`), the `connection.update` callback registered in
`start`, and the pieces of their environment that decide their behaviour:

* `otpStore = new NodeCache({ stdTTL: 300 })`, an in-memory key/value cache with
  per-entry expiry timestamps, modelled with an explicit clock argument
  (`Date.now()`, in milliseconds);
* IEEE-754 double arithmetic, as far as
  `Math.floor(100000 + Math.random() * 900000).toString()` needs it
  (round-to-nearest, ties-to-even, 53-bit significand, on rationals);
* the messaging client `global.Matrix`, whose calls either return or throw.
-/

namespace OtpBot

/-! ## IEEE-754 double rounding on rationals -/

/-- Exponent of the unit in the last place of the binade that contains the
positive rational `q`: `max ⌊log₂ q⌋ (-1022) - 52` (the `max` gives the
subnormal grid `2 ^ (-1074)`). -/
def ulpExp (q : ℚ) : ℤ := max (Int.log 2 q) (-1022) - 52

/-- Round a rational to the nearest integer, ties to the even one. -/
def roundHalfEven (m : ℚ) : ℤ :=
  if m - ⌊m⌋ < 1 / 2 then ⌊m⌋
  else if 1 / 2 < m - ⌊m⌋ then ⌊m⌋ + 1
  else if ⌊m⌋ % 2 = 0 then ⌊m⌋ else ⌊m⌋ + 1

/-- Rounding of a positive rational to the nearest double (finite range). -/
def flPos (q : ℚ) : ℚ := (roundHalfEven (q / 2 ^ ulpExp q) : ℚ) * 2 ^ ulpExp q

/-- The double nearest to the rational `q` (round-to-nearest, ties-to-even).
Overflow to `Infinity` (`|q| ≥ 2 ^ 1024`) is outside the model. -/
def fl (q : ℚ) : ℚ :=
  if q = 0 then 0 else if q < 0 then -flPos (-q) else flPos q

/-- A rational is a double when rounding leaves it unchanged. -/
def isDouble (q : ℚ) : Prop := fl q = q

instance (q : ℚ) : Decidable (isDouble q) := by unfold isDouble; infer_instance

/-- `Number.prototype.toString()` of an integer-valued double below `1e21`:
plain decimal digits, with a minus sign for negative values. -/
def numberToString (n : ℤ) : String := toString n

/-- Line 129: `Math.floor(100000 + Math.random() * 900000).toString()`, where
`random` is the value returned by `Math.random()`. Both arithmetic operations
round to double. -/
def generateOtp (random : ℚ) : String :=
  numberToString ⌊fl (100000 + fl (random * 900000))⌋

/-! ## Values exchanged with the environment -/

/-- A thrown JavaScript `Error`; the handlers only read `error.message`. -/
structure JsError where
  message : String
deriving DecidableEq, Repr

/-- An Express response `res.status(status).json(body)`; every body produced by
the handlers is a flat JSON object with string fields, kept in source order. -/
structure Response where
  status : Nat
  body : List (String × String)
deriving DecidableEq, Repr

/-- Value of a field of the JSON body, if present. -/
def Response.field (res : Response) (name : String) : Option String :=
  res.body.lookup name

/-- JavaScript truthiness of a query parameter read from `req.query`: a missing
parameter (`undefined`) and the empty string are falsy. -/
def truthy : Option String → Bool
  | none => false
  | some s => if s = "" then false else true

/-! ## `otpStore = new NodeCache({ stdTTL: 300 })` -/

/-- Line 27: the `stdTTL` option of `otpStore`, in seconds. -/
def stdTTL : Nat := 300

/-- Modelled from the spec: a cache entry of the external `node-cache` package
(not part of the repository sources). The spec's `OtpRecord` keeps a `code` and
an expiry derived from the creation time; `node-cache` keeps them as `v` and as
the absolute expiry timestamp `t` in milliseconds (`0` means no expiry). -/
structure Wrapped where
  t : Nat
  v : String
deriving DecidableEq, Repr

/-- Modelled from the spec: the `OtpStore` mapping from recipient to record,
held by the external `node-cache` package in its `data` object. -/
structure NodeCache where
  data : String → Option Wrapped

/-- A cache that holds nothing, as right after `new NodeCache(...)`. -/
def NodeCache.empty : NodeCache := ⟨fun _ => none⟩

/-- Modelled from the spec: `NodeCache.set(key, value)` without an explicit
ttl; the entry lives `stdTTL` seconds from `now = Date.now()` and overwrites
any earlier entry of the key ("stores recipient -> code with a 300-second
expiry timer, overwriting any existing unexpired record"). -/
def NodeCache.set (c : NodeCache) (now : Nat) (key value : String) : NodeCache :=
  ⟨fun k => if k = key then some ⟨if stdTTL = 0 then 0 else now + stdTTL * 1000, value⟩
            else c.data k⟩

/-- Modelled from the spec: `NodeCache.del(key)`. -/
def NodeCache.del (c : NodeCache) (key : String) : NodeCache :=
  ⟨fun k => if k = key then none else c.data k⟩

/-- Modelled from the spec: `NodeCache.get(key)` at time `now = Date.now()`.
An entry whose expiry timestamp is in the past is deleted and reported as
absent (passive expiry); otherwise its value is returned. -/
def NodeCache.get (c : NodeCache) (now : Nat) (key : String) : Option String × NodeCache :=
  match c.data key with
  | none => (none, c)
  | some w => if w.t ≠ 0 ∧ w.t < now then (none, c.del key) else (some w.v, c)

/-- Modelled from the spec: the periodic sweep of `node-cache` (active expiry):
every entry whose expiry timestamp is in the past is deleted. -/
def NodeCache.checkData (c : NodeCache) (now : Nat) : NodeCache :=
  ⟨fun k => match c.data k with
    | none => none
    | some w => if w.t ≠ 0 ∧ w.t < now then none else some w⟩

/-! ## The messaging client -/

/-- Result of `generateWAMessageFromContent`: the fields the handler reads. -/
structure WAMessage where
  remoteJid : String
  id : String
  message : String
deriving DecidableEq, Repr

/-- The socket stored in `global.Matrix`. `user` is present once the session is
authenticated; the two send operations return or throw. -/
structure WASocket where
  user : Option String
  relayMessage : String → String → String → Except JsError Unit
  sendMessage : String → String → Except JsError Unit

/-- The part of the process state the HTTP handlers read besides `otpStore`:
the global socket and the library function that builds a message. -/
structure Env where
  Matrix : Option WASocket
  generateWAMessageFromContent : String → String → Except JsError WAMessage

/-- Lines 125 and 231: `!global.Matrix || !global.Matrix.user`. -/
def clientUnavailable (m : Option WASocket) : Bool :=
  match m with
  | none => true
  | some sock => sock.user.isNone

/-- Line 144: body text of the interactive message. -/
def otpText (otp : String) : String :=
  "Your OTP is *" ++ otp ++
    "*. Please use it to verify your identity.\n\nVisit our site: https://solo-leveling-mini-x.vercel.app/"

/-! ## Responses -/

/-- Lines 123, 200, 228. -/
def numberRequired : Response := ⟨400, [("error", "Phone number is required!")]⟩

/-- Line 201. -/
def otpRequired : Response := ⟨400, [("error", "OTP is required!")]⟩

/-- Line 229. -/
def messageRequired : Response := ⟨400, [("error", "Message text is required!")]⟩

/-- Lines 126, 232. -/
def notConnected : Response := ⟨500, [("error", "WhatsApp bot is not connected!")]⟩

/-- Lines 184-189. -/
def otpSent (number otp : String) : Response :=
  ⟨200, [("message", "OTP sent successfully"), ("number", number), ("otp", otp),
         ("status", "success")]⟩

/-- Line 193. -/
def otpSendFailed (error : JsError) : Response :=
  ⟨500, [("error", "Failed to send OTP"), ("details", error.message)]⟩

/-- Line 206. -/
def otpNotFound : Response := ⟨400, [("error", "OTP not found. Please request OTP first.")]⟩

/-- Lines 212-215. -/
def otpVerified : Response :=
  ⟨200, [("message", "OTP verified successfully!"), ("status", "success")]⟩

/-- Lines 218-221. -/
def otpInvalid : Response :=
  ⟨400, [("error", "Invalid OTP or OTP expired. Please try again."), ("status", "failure")]⟩

/-- Lines 240-243. -/
def messageSent (number message : String) : Response :=
  ⟨200, [("message", "Message sent to " ++ number), ("text", message)]⟩

/-- Line 246. -/
def messageSendFailed : Response := ⟨500, [("error", "Failed to send message")]⟩

/-! ## HTTP handlers -/

/-- Lines 133-180, the body of the `try` block of `/send-otp`: build the
interactive message, then relay it through the socket. Either call may throw. -/
def dispatchOtp (env : Env) (sock : WASocket) (number otp : String) : Except JsError Unit :=
  (env.generateWAMessageFromContent (number ++ "@s.whatsapp.net") (otpText otp)).bind
    fun msg => sock.relayMessage msg.remoteJid msg.message msg.id

/-- Lines 120-195, `app.get('/send-otp')`. `now` is `Date.now()` at the call of
`otpStore.set`, `random` the value of `Math.random()`. Returns the response and
the store after the request. -/
def sendOtp (env : Env) (otpStore : NodeCache) (now : Nat) (random : ℚ)
    (number : Option String) : Response × NodeCache :=
  if truthy number = false then (numberRequired, otpStore)
  else
    match env.Matrix with
    | none => (notConnected, otpStore)
    | some sock =>
      if sock.user.isNone then (notConnected, otpStore)
      else
        let number := number.getD ""
        let otp := generateOtp random
        let otpStore := otpStore.set now number otp
        match dispatchOtp env sock number otp with
        | Except.ok _ => (otpSent number otp, otpStore)
        | Except.error error => (otpSendFailed error, otpStore)

/-- Lines 203-222: the store lookup and comparison of `/verify-otp`, after the
two parameters have been validated. -/
def verifyStored (otpStore : NodeCache) (now : Nat) (number otp : String) :
    Response × NodeCache :=
  match otpStore.get now number with
  | (none, otpStore) => (otpNotFound, otpStore)
  | (some storedOtp, otpStore) =>
    if storedOtp = "" then (otpNotFound, otpStore)
    else if storedOtp = otp then (otpVerified, otpStore.del number)
    else (otpInvalid, otpStore)

/-- Lines 197-223, `app.get('/verify-otp')`. -/
def verifyOtp (otpStore : NodeCache) (now : Nat) (number otp : Option String) :
    Response × NodeCache :=
  if truthy number = false then (numberRequired, otpStore)
  else if truthy otp = false then (otpRequired, otpStore)
  else verifyStored otpStore now (number.getD "") (otp.getD "")

/-- Lines 225-248, `app.get('/send-message')`. The handler does not touch
`otpStore`. -/
def sendMessage (env : Env) (number message : Option String) : Response :=
  if truthy number = false then numberRequired
  else if truthy message = false then messageRequired
  else
    match env.Matrix with
    | none => notConnected
    | some sock =>
      if sock.user.isNone then notConnected
      else
        match sock.sendMessage (number.getD "" ++ "@s.whatsapp.net") (message.getD "") with
        | Except.ok _ => messageSent (number.getD "") (message.getD "")
        | Except.error _ => messageSendFailed

/-! ## Sequences of requests against the store -/

/-- One event that can change `otpStore`: the two handlers that use it and the
periodic sweep of the cache. -/
inductive Request where
  | sendOtp (env : Env) (now : Nat) (random : ℚ) (number : Option String)
  | verifyOtp (now : Nat) (number otp : Option String)
  | checkData (now : Nat)

/-- Store after one event. -/
def step (otpStore : NodeCache) : Request → NodeCache
  | Request.sendOtp env now random number => (sendOtp env otpStore now random number).2
  | Request.verifyOtp now number otp => (verifyOtp otpStore now number otp).2
  | Request.checkData now => otpStore.checkData now

/-- Store after a sequence of events, handled in arrival order. -/
def run (otpStore : NodeCache) (requests : List Request) : NodeCache :=
  requests.foldl step otpStore

/-- The event is a `/send-otp` request for `recipient` that passes both guards
(lines 123 and 125), that is, one that reaches `otpStore.set` for `recipient`. -/
def Request.issuesFor (recipient : String) : Request → Bool
  | Request.sendOtp env _ _ number =>
    decide (number = some recipient) && truthy number && !clientUnavailable env.Matrix
  | _ => false

/-- Consecutive `/verify-otp` requests for one number, each with its own time
and candidate; returns the responses in order and the final store. -/
def verifyMany (otpStore : NodeCache) (number : String) :
    List (Nat × String) → List Response × NodeCache
  | [] => ([], otpStore)
  | (now, otp) :: rest =>
    let r := verifyOtp otpStore now (some number) (some otp)
    let rs := verifyMany r.2 number rest
    (r.1 :: rs.1, rs.2)

/-- A connected client whose operations succeed. -/
def okSocket : WASocket :=
  ⟨some "bot", fun _ _ _ => Except.ok (), fun _ _ => Except.ok ()⟩

/-- An environment with a connected client and a working message builder. -/
def okEnv : Env := ⟨some okSocket, fun jid text => Except.ok ⟨jid, "MSGID", text⟩⟩

/-- A connected client whose send operations throw `error`. -/
def failingSocket (error : JsError) : WASocket :=
  ⟨some "bot", fun _ _ _ => Except.error error, fun _ _ => Except.error error⟩

/-- An environment with a connected client whose send operations throw. -/
def failingEnv (error : JsError) : Env :=
  ⟨some (failingSocket error), fun jid text => Except.ok ⟨jid, "MSGID", text⟩⟩

/-- An environment without a session: `global.Matrix` is unset. -/
def noSessionEnv : Env := ⟨none, fun jid text => Except.ok ⟨jid, "MSGID", text⟩⟩

/-! ## The `connection.update` callback -/

/-- The `output` of a Boom error. -/
structure Output where
  statusCode : Option Nat
deriving DecidableEq, Repr

/-- The `error` of `lastDisconnect`. -/
structure DisconnectError where
  output : Option Output
deriving DecidableEq, Repr

/-- The `lastDisconnect` field of an update. -/
structure LastDisconnect where
  error : Option DisconnectError
deriving DecidableEq, Repr

/-- The `update` object passed to the callback; both fields are optional. -/
structure ConnectionUpdate where
  connection : Option String
  lastDisconnect : Option LastDisconnect
deriving DecidableEq, Repr

/-- Observable actions of the callback. -/
inductive Effect where
  | emitUpdate (update : ConnectionUpdate)
  | emitStatus (text : String)
  | setTimeoutStart (delay : Nat)
  | sendMessage (jid text : String)
deriving DecidableEq, Repr

/-- Outcome of one run of the callback: the actions performed in order, the
value of `initialConnection` afterwards, and the fault thrown, if any. -/
structure HandlerRun where
  effects : List Effect
  initialConnection : Bool
  thrown : Option JsError
deriving DecidableEq, Repr

/-- Lines 81-110, the `connection.update` callback. `loggedOut` is the library
constant `DisconnectReason.loggedOut`, `initialConnection` the module variable
of line 44. Reading `lastDisconnect.error` (line 86) when `lastDisconnect` is
`undefined` throws a `TypeError`. The send of line 96 is wrapped in
`try`/`catch`, so its failure is only logged. -/
def onConnectionUpdate (loggedOut : Nat) (initialConnection : Bool)
    (update : ConnectionUpdate) : HandlerRun :=
  let emitted := [Effect.emitUpdate update]
  if update.connection = some "close" then
    match update.lastDisconnect with
    | none =>
      ⟨emitted, initialConnection,
        some ⟨"Cannot read properties of undefined (reading \x27error\x27)"⟩⟩
    | some lastDisconnect =>
      let statusCode := (lastDisconnect.error.bind fun e => e.output).bind fun o => o.statusCode
      let shouldReconnect := decide (statusCode ≠ some loggedOut)
      if shouldReconnect then ⟨emitted ++ [Effect.setTimeoutStart 5000], initialConnection, none⟩
      else ⟨emitted, initialConnection, none⟩
  else if update.connection = some "open" then
    if initialConnection then
      ⟨emitted ++ [Effect.emitStatus "🌟 OTP-MD-CONNECTED 🌟",
          Effect.sendMessage "94753262213@s.whatsapp.net"
            "🌟 OTP-MD Bot Connected Successfully! 🌟"], false, none⟩
    else ⟨emitted ++ [Effect.emitStatus "♻️ Connection reestablished."], initialConnection, none⟩
  else ⟨emitted, initialConnection, none⟩

/-- Number of reconnection timers (`setTimeout(start, delay)`) among the actions. -/
def reconnects (delay : Nat) (r : HandlerRun) : Nat :=
  r.effects.count (Effect.setTimeoutStart delay)

/-- Number of timers of any delay among the actions. -/
def timers (r : HandlerRun) : Nat :=
  (r.effects.filter fun e => match e with
    | Effect.setTimeoutStart _ => true
    | _ => false).length

/-! ## Rounding lemmas -/

theorem roundHalfEven_le_of_lt {m : ℚ} {N : ℤ} (h : m < N + 1 / 2) : roundHalfEven m ≤ N := by
  have h1 : (⌊m⌋ : ℚ) ≤ m := Int.floor_le m
  have hfl : ⌊m⌋ ≤ N := by
    by_contra hc
    have hc2 : N + 1 ≤ ⌊m⌋ := by omega
    have hc3 : ((N + 1 : ℤ) : ℚ) ≤ (⌊m⌋ : ℚ) := by exact_mod_cast hc2
    push_cast at hc3
    linarith
  have hstep : 1 / 2 ≤ m - ⌊m⌋ → ⌊m⌋ + 1 ≤ N := by
    intro hh
    by_contra hc
    have hc2 : N ≤ ⌊m⌋ := by omega
    have hc3 : (N : ℚ) ≤ (⌊m⌋ : ℚ) := by exact_mod_cast hc2
    linarith
  unfold roundHalfEven
  split_ifs with c1 c2 c3
  · exact hfl
  · exact hstep (le_of_lt c2)
  · exact hfl
  · exact hstep (not_lt.mp c1)

theorem le_roundHalfEven {m : ℚ} {N : ℤ} (h : (N : ℚ) ≤ m) : N ≤ roundHalfEven m := by
  have hfl : N ≤ ⌊m⌋ := Int.le_floor.mpr h
  unfold roundHalfEven
  split_ifs <;> omega

theorem two_zpow_pos (k : ℤ) : (0 : ℚ) < 2 ^ k := zpow_pos (by norm_num) k

theorem flPos_le {q r : ℚ} {N : ℤ} (hr : r = N * 2 ^ ulpExp q)
    (h : q < r + 2 ^ ulpExp q / 2) : flPos q ≤ r := by
  have hu := two_zpow_pos (ulpExp q)
  have hm : q / 2 ^ ulpExp q < N + 1 / 2 := by
    rw [div_lt_iff₀ hu]
    rw [hr] at h
    linarith
  have hN := roundHalfEven_le_of_lt hm
  have hN2 : (roundHalfEven (q / 2 ^ ulpExp q) : ℚ) ≤ (N : ℚ) := by exact_mod_cast hN
  unfold flPos
  rw [hr]
  exact mul_le_mul_of_nonneg_right hN2 (le_of_lt hu)

theorem le_flPos {q r : ℚ} {N : ℤ} (hr : r = N * 2 ^ ulpExp q) (h : r ≤ q) : r ≤ flPos q := by
  have hu := two_zpow_pos (ulpExp q)
  have hm : (N : ℚ) ≤ q / 2 ^ ulpExp q := by
    rw [le_div_iff₀ hu]
    rw [hr] at h
    exact h
  have hN := le_roundHalfEven hm
  have hN2 : (N : ℚ) ≤ (roundHalfEven (q / 2 ^ ulpExp q) : ℚ) := by exact_mod_cast hN
  unfold flPos
  rw [hr]
  exact mul_le_mul_of_nonneg_right hN2 (le_of_lt hu)

theorem log_lt_of_lt {q : ℚ} (hq : 0 < q) {k : ℤ} (h : q < 2 ^ k) : Int.log 2 q < k := by
  have := (Int.lt_zpow_iff_log_lt (R := ℚ) (b := 2) (by norm_num) hq (x := k)).mp (by exact_mod_cast h)
  exact this

theorem le_log_of_le {q : ℚ} (hq : 0 < q) {k : ℤ} (h : 2 ^ k ≤ q) : k ≤ Int.log 2 q := by
  have := (Int.zpow_le_iff_le_log (R := ℚ) (b := 2) (by norm_num) hq (x := k)).mp (by exact_mod_cast h)
  exact this

theorem ulpExp_le {q : ℚ} (hq : 0 < q) (h : q < 2 ^ (20 : ℤ)) : ulpExp q ≤ -33 := by
  have := log_lt_of_lt hq h
  unfold ulpExp
  omega

theorem ulpExp_eq {q : ℚ} (hq : 0 < q) {k : ℤ} (hk : -1022 ≤ k) (h1 : 2 ^ k ≤ q)
    (h2 : q < 2 ^ (k + 1)) : ulpExp q = k - 52 := by
  have a := log_lt_of_lt hq h2
  have b := le_log_of_le hq h1
  unfold ulpExp
  omega

theorem grid33 {q : ℚ} (hq : 0 < q) (h : q < 2 ^ (20 : ℤ)) (M : ℤ) :
    ∃ N : ℤ, (M : ℚ) / 2 ^ (33 : ℕ) = N * 2 ^ ulpExp q := by
  have hle := ulpExp_le hq h
  obtain ⟨k, hk⟩ : ∃ k : ℕ, (k : ℤ) = -33 - ulpExp q := ⟨(-33 - ulpExp q).toNat, by omega⟩
  refine ⟨M * 2 ^ k, ?_⟩
  have h2 : (2 : ℚ) ^ ulpExp q = 2 ^ (-(33 : ℤ)) / 2 ^ (k : ℤ) := by
    have : ulpExp q = -(33 : ℤ) - k := by omega
    rw [this, zpow_sub₀ (by norm_num)]
  rw [h2]
  push_cast
  have hk0 : (2 : ℚ) ^ k ≠ 0 := by positivity
  rw [zpow_neg, zpow_natCast]
  field_simp
  ring


theorem flPos_nonneg {q : ℚ} (hq : 0 ≤ q) : 0 ≤ flPos q :=
  le_flPos (N := 0) (by simp) hq

theorem fl_of_pos {q : ℚ} (hq : 0 < q) : fl q = flPos q := by
  unfold fl
  rw [if_neg (ne_of_gt hq), if_neg (not_lt.mpr (le_of_lt hq))]

/-- Below `2 ^ 20`, rounding never crosses a multiple of `2 ^ (-33)` from below. -/
theorem fl_le_grid {q : ℚ} (hq : 0 < q) (h : q < 2 ^ (20 : ℤ)) (M : ℤ)
    (hle : q ≤ (M : ℚ) / 2 ^ (33 : ℕ)) : fl q ≤ (M : ℚ) / 2 ^ (33 : ℕ) := by
  obtain ⟨N, hN⟩ := grid33 hq h M
  rw [fl_of_pos hq]
  refine flPos_le hN ?_
  have := two_zpow_pos (ulpExp q)
  linarith

theorem grid_le_fl {q : ℚ} (hq : 0 < q) (h : q < 2 ^ (20 : ℤ)) (M : ℤ)
    (hle : (M : ℚ) / 2 ^ (33 : ℕ) ≤ q) : (M : ℚ) / 2 ^ (33 : ℕ) ≤ fl q := by
  obtain ⟨N, hN⟩ := grid33 hq h M
  rw [fl_of_pos hq]
  exact le_flPos hN hle

/-- The product `random * 900000`, rounded, stays at or below the double just under `900000`. -/
theorem fl_mul_bound {x : ℚ} (h0 : 0 ≤ x) (h1 : x ≤ 1 - 1 / 2 ^ (53 : ℕ)) :
    0 ≤ fl (x * 900000) ∧ fl (x * 900000) ≤ 900000 - 1 / 2 ^ (33 : ℕ) := by
  rcases eq_or_lt_of_le h0 with hx | hx
  · subst hx
    norm_num [fl]
  have hq : 0 < x * 900000 := by positivity
  have hub : x * 900000 ≤ 900000 - 900000 / 2 ^ (53 : ℕ) := by linarith
  have h20 : x * 900000 < 2 ^ (20 : ℤ) := by norm_num at hub ⊢; linarith
  refine ⟨by rw [fl_of_pos hq]; exact flPos_nonneg (le_of_lt hq), ?_⟩
  by_cases hlow : x * 900000 < 2 ^ (19 : ℤ)
  · have := fl_le_grid hq h20 (2 ^ 19 * 2 ^ 33) (by
      have : (((2 ^ 19 * 2 ^ 33 : ℤ)) : ℚ) / 2 ^ (33 : ℕ) = 2 ^ (19 : ℤ) := by norm_num
      rw [this]; exact le_of_lt hlow)
    norm_num at this ⊢
    linarith
  · have hlow2 : (2 : ℚ) ^ (19 : ℤ) ≤ x * 900000 := not_lt.mp hlow
    have hu : ulpExp (x * 900000) = -33 := by
      have := ulpExp_eq hq (k := 19) (by norm_num) hlow2 (by norm_num at h20 ⊢; exact h20)
      rw [this]; norm_num
    rw [fl_of_pos hq]
    refine flPos_le (N := 900000 * 2 ^ 33 - 1) ?_ ?_
    · rw [hu]; norm_num
    · rw [hu]; norm_num at hub ⊢; linarith

theorem floor_fl_bounds {x : ℚ} (h0 : 0 ≤ x) (h1 : x ≤ 1 - 1 / 2 ^ (53 : ℕ)) :
    100000 ≤ ⌊fl (100000 + fl (x * 900000))⌋ ∧ ⌊fl (100000 + fl (x * 900000))⌋ ≤ 999999 := by
  obtain ⟨hy0, hy1⟩ := fl_mul_bound h0 h1
  set y := fl (x * 900000) with hy
  have hz0 : 0 < 100000 + y := by linarith
  have hz20 : 100000 + y < 2 ^ (20 : ℤ) := by norm_num at hy1 ⊢; linarith
  have hlo := grid_le_fl hz0 hz20 (100000 * 2 ^ 33) (by norm_num; linarith)
  have hhi := fl_le_grid hz0 hz20 (1000000 * 2 ^ 33 - 1) (by norm_num at hy1 ⊢; linarith)
  constructor
  · rw [Int.le_floor]
    norm_num at hlo ⊢
    linarith
  · have : ⌊fl (100000 + y)⌋ < 1000000 := by
      rw [Int.floor_lt]
      norm_num at hhi ⊢
      linarith
    omega

theorem double_lt_one {x : ℚ} (hx : isDouble x) (h1 : x < 1) :
    x ≤ 1 - 1 / 2 ^ (53 : ℕ) := by
  by_contra hc
  have hc : 1 - 1 / 2 ^ (53 : ℕ) < x := not_le.mp hc
  have hq : 0 < x := by norm_num at hc; linarith
  have hu : ulpExp x = -53 := by
    have := ulpExp_eq hq (k := -1) (by norm_num) (by norm_num at hc ⊢; linarith) (by norm_num; exact h1)
    rw [this]; norm_num
  unfold isDouble at hx
  rw [fl_of_pos hq] at hx
  unfold flPos at hx
  rw [hu] at hx
  set R := roundHalfEven (x / 2 ^ (-53 : ℤ)) with hR
  have hx2 : (R : ℚ) = x * 2 ^ (53 : ℕ) := by
    rw [← hx]; norm_num; ring
  have hlt : (R : ℚ) < ((2 ^ 53 : ℤ) : ℚ) := by rw [hx2]; norm_num; linarith
  have hgt : (((2 ^ 53 - 1 : ℤ)) : ℚ) < (R : ℚ) := by rw [hx2]; norm_num at hc ⊢; linarith
  have a : R < 2 ^ 53 := by exact_mod_cast hlt
  have b : 2 ^ 53 - 1 < R := by exact_mod_cast hgt
  omega

/-! ## Decimal rendering -/

theorem digitChar_isDigit (d : ℕ) (h : d < 10) : (Nat.digitChar d).isDigit = true := by
  interval_cases d <;> decide

theorem digitChar_ne_zero (d : ℕ) (h0 : 0 < d) (h : d < 10) : Nat.digitChar d ≠ '0' := by
  interval_cases d <;> decide

theorem toDigits_six (m : ℕ) (h0 : 100000 ≤ m) (h1 : m ≤ 999999) :
    Nat.toDigits 10 m =
      [Nat.digitChar (m / 100000), Nat.digitChar (m / 10000 % 10), Nat.digitChar (m / 1000 % 10),
       Nat.digitChar (m / 100 % 10), Nat.digitChar (m / 10 % 10), Nat.digitChar (m % 10)] := by
  obtain ⟨k, hk⟩ : ∃ k, m + 1 = k + 6 := ⟨m - 5, by omega⟩
  unfold Nat.toDigits
  rw [hk]
  have e1 : m / 10 ≠ 0 := by omega
  have e2 : m / 10 / 10 ≠ 0 := by omega
  have e3 : m / 10 / 10 / 10 ≠ 0 := by omega
  have e4 : m / 10 / 10 / 10 / 10 ≠ 0 := by omega
  have e5 : m / 10 / 10 / 10 / 10 / 10 ≠ 0 := by omega
  have e6 : m / 10 / 10 / 10 / 10 / 10 / 10 = 0 := by omega
  simp only [Nat.toDigitsCore, e1, e2, e3, e4, e5, e6, if_false, if_true]
  have a1 : m / 10 / 10 / 10 / 10 / 10 % 10 = m / 100000 := by omega
  have a2 : m / 10 / 10 / 10 / 10 % 10 = m / 10000 % 10 := by omega
  have a3 : m / 10 / 10 / 10 % 10 = m / 1000 % 10 := by omega
  have a4 : m / 10 / 10 % 10 = m / 100 % 10 := by omega
  rw [a1, a2, a3, a4]

theorem toDigitsCore_ne_nil (b : ℕ) : ∀ (fuel n : ℕ) (ds : List Char), ds ≠ [] →
    Nat.toDigitsCore b fuel n ds ≠ [] := by
  intro fuel
  induction fuel with
  | zero => intro n ds h; simpa [Nat.toDigitsCore] using h
  | succ f ih =>
    intro n ds _
    simp only [Nat.toDigitsCore]
    split_ifs
    · simp
    · exact ih _ _ (by simp)

theorem repr_ne_empty (m : ℕ) : Nat.repr m ≠ "" := by
  have h : Nat.toDigits 10 m ≠ [] := by
    unfold Nat.toDigits
    simp only [Nat.toDigitsCore]
    split_ifs
    · simp
    · exact toDigitsCore_ne_nil 10 _ _ _ (by simp)
  intro hc
  apply h
  have := congrArg String.data hc
  simpa [Nat.repr, List.asString] using this

theorem numberToString_ne_empty (n : ℤ) : numberToString n ≠ "" := by
  cases n with
  | ofNat m => exact repr_ne_empty m
  | negSucc m =>
    intro hc
    have := congrArg String.length hc
    change ("-" ++ Nat.repr (m + 1)).length = 0 at this
    rw [String.length_append] at this
    have h1 : "-".length = 1 := by decide
    omega

theorem generateOtp_ne_empty (random : ℚ) : generateOtp random ≠ "" :=
  numberToString_ne_empty _

theorem generateOtp_shape {x : ℚ} (hx : isDouble x) (h0 : 0 ≤ x) (h1 : x < 1) :
    ∃ n : ℕ, 100000 ≤ n ∧ n ≤ 999999 ∧ ⌊fl (100000 + fl (x * 900000))⌋ = (n : ℤ) ∧
      generateOtp x = Nat.repr n ∧
      (generateOtp x).data =
        [Nat.digitChar (n / 100000), Nat.digitChar (n / 10000 % 10),
         Nat.digitChar (n / 1000 % 10), Nat.digitChar (n / 100 % 10),
         Nat.digitChar (n / 10 % 10), Nat.digitChar (n % 10)] := by
  obtain ⟨hlo, hhi⟩ := floor_fl_bounds h0 (double_lt_one hx h1)
  obtain ⟨n, hn⟩ : ∃ n : ℕ, ⌊fl (100000 + fl (x * 900000))⌋ = (n : ℤ) :=
    ⟨(⌊fl (100000 + fl (x * 900000))⌋).toNat, by omega⟩
  have hn0 : 100000 ≤ n := by omega
  have hn1 : n ≤ 999999 := by omega
  have hrepr : generateOtp x = Nat.repr n := by
    unfold generateOtp
    rw [hn]
    rfl
  refine ⟨n, hn0, hn1, hn, hrepr, ?_⟩
  rw [hrepr]
  simp only [Nat.repr, List.asString]
  exact toDigits_six n hn0 hn1

/-! ## Store lemmas -/

theorem set_data_self (s : NodeCache) (now : Nat) (key value : String) :
    (s.set now key value).data key = some ⟨now + 300000, value⟩ := by
  simp [NodeCache.set, stdTTL]

theorem set_data_other (s : NodeCache) (now : Nat) {key k : String} (value : String)
    (h : k ≠ key) : (s.set now key value).data k = s.data k := by
  simp [NodeCache.set, h]

theorem del_data_self (s : NodeCache) (key : String) : (s.del key).data key = none := by
  simp [NodeCache.del]

theorem del_data_other (s : NodeCache) {key k : String} (h : k ≠ key) :
    (s.del key).data k = s.data k := by
  simp [NodeCache.del, h]

theorem get_absent {s : NodeCache} {key : String} (now : Nat) (h : s.data key = none) :
    s.get now key = (none, s) := by
  simp [NodeCache.get, h]

theorem get_live {s : NodeCache} {key : String} {w : Wrapped} {now : Nat}
    (h : s.data key = some w) (hl : ¬ (w.t ≠ 0 ∧ w.t < now)) :
    s.get now key = (some w.v, s) := by
  simp only [NodeCache.get, h, if_neg hl]

theorem get_expired {s : NodeCache} {key : String} {w : Wrapped} {now : Nat}
    (h : s.data key = some w) (hl : w.t ≠ 0 ∧ w.t < now) :
    s.get now key = (none, s.del key) := by
  simp only [NodeCache.get, h, if_pos hl]

theorem verifyStored_absent {s : NodeCache} {r : String} (now : Nat) (x : String)
    (h : s.data r = none) : verifyStored s now r x = (otpNotFound, s) := by
  simp [verifyStored, get_absent now h]

theorem verifyStored_expired {s : NodeCache} {r : String} {w : Wrapped} {now : Nat} (x : String)
    (h : s.data r = some w) (hl : w.t ≠ 0 ∧ w.t < now) :
    verifyStored s now r x = (otpNotFound, s.del r) := by
  simp [verifyStored, get_expired h hl]

theorem verifyStored_match {s : NodeCache} {r : String} {w : Wrapped} {now : Nat}
    (h : s.data r = some w) (hl : ¬ (w.t ≠ 0 ∧ w.t < now)) (hv : w.v ≠ "") :
    verifyStored s now r w.v = (otpVerified, s.del r) := by
  simp [verifyStored, get_live h hl, hv]

theorem verifyStored_mismatch {s : NodeCache} {r : String} {w : Wrapped} {now : Nat} {x : String}
    (h : s.data r = some w) (hl : ¬ (w.t ≠ 0 ∧ w.t < now)) (hv : w.v ≠ "") (hx : w.v ≠ x) :
    verifyStored s now r x = (otpInvalid, s) := by
  simp [verifyStored, get_live h hl, hv, hx]

theorem verifyOtp_some {s : NodeCache} {r x : String} (now : Nat) (hr : r ≠ "") (hx : x ≠ "") :
    verifyOtp s now (some r) (some x) = verifyStored s now r x := by
  simp [verifyOtp, truthy, hr, hx]

theorem sendOtp_issue {env : Env} {sock : WASocket} {u r : String} (s : NodeCache) (now : Nat)
    (random : ℚ) (hr : r ≠ "") (hM : env.Matrix = some sock) (hu : sock.user = some u) :
    sendOtp env s now random (some r) =
      (match dispatchOtp env sock r (generateOtp random) with
        | Except.ok _ => otpSent r (generateOtp random)
        | Except.error e => otpSendFailed e,
       s.set now r (generateOtp random)) := by
  simp only [sendOtp, truthy, hr, hM, hu]
  cases h : dispatchOtp env sock r (generateOtp random) <;> simp [h]

theorem sendOtp_reject_number (env : Env) (s : NodeCache) (now : Nat) (random : ℚ)
    {number : Option String} (h : truthy number = false) :
    sendOtp env s now random number = (numberRequired, s) := by
  simp [sendOtp, h]

theorem sendOtp_reject_client (env : Env) (s : NodeCache) (now : Nat) (random : ℚ)
    {number : Option String} (h : truthy number = true) (hc : clientUnavailable env.Matrix = true) :
    sendOtp env s now random number = (notConnected, s) := by
  unfold sendOtp
  rw [if_neg (by simp [h])]
  cases hM : env.Matrix with
  | none => rfl
  | some sock =>
    rw [hM] at hc
    simp only [clientUnavailable] at hc
    simp [hc]

theorem verifyStored_store (s : NodeCache) (now : Nat) (r x : String) :
    (verifyStored s now r x).2 = s ∨ (verifyStored s now r x).2 = s.del r := by
  cases hd : s.data r with
  | none =>
    left
    rw [verifyStored_absent now x hd]
  | some w =>
    by_cases hl : w.t ≠ 0 ∧ w.t < now
    · right
      rw [verifyStored_expired x hd hl]
    · by_cases hv : w.v = ""
      · left
        simp [verifyStored, get_live hd hl, hv]
      · by_cases hx : w.v = x
        · right
          subst hx
          rw [verifyStored_match hd hl hv]
        · left
          rw [verifyStored_mismatch hd hl hv hx]

theorem verifyOtp_store (s : NodeCache) (now : Nat) (number otp : Option String) :
    (verifyOtp s now number otp).2 = s ∨
      (verifyOtp s now number otp).2 = s.del (number.getD "") := by
  unfold verifyOtp
  split_ifs
  · left; rfl
  · left; rfl
  · exact verifyStored_store s now _ _

/-- One event changes the entry of a key in one of three ways: not at all, by
removing it, or (only a `/send-otp` that passes both guards for that key) by
writing a fresh generated code. -/
theorem step_data (s : NodeCache) (q : Request) (k : String) :
    (step s q).data k = s.data k ∨ (step s q).data k = none ∨
      (q.issuesFor k = true ∧ k ≠ "" ∧
        ∃ now random, (step s q).data k = some ⟨now + 300000, generateOtp random⟩) := by
  cases q with
  | sendOtp env now random number =>
    by_cases ht : truthy number = false
    · left
      simp [step, sendOtp_reject_number env s now random ht]
    · have ht2 : truthy number = true := by simpa using ht
      by_cases hc : clientUnavailable env.Matrix = true
      · left
        simp [step, sendOtp_reject_client env s now random ht2 hc]
      · cases number with
        | none => simp [truthy] at ht2
        | some r =>
          have hr : r ≠ "" := by
            intro h
            simp [truthy, h] at ht2
          cases hM : env.Matrix with
          | none => simp [hM, clientUnavailable] at hc
          | some sock =>
            cases hu : sock.user with
            | none => simp [hM, clientUnavailable, hu] at hc
            | some u =>
              have hstep : step s (Request.sendOtp env now random (some r)) =
                  s.set now r (generateOtp random) := by
                simp [step, sendOtp_issue s now random hr hM hu]
              rw [hstep]
              by_cases hk : k = r
              · right; right
                subst hk
                refine ⟨?_, hr, now, random, set_data_self s now k _⟩
                simp [Request.issuesFor, truthy, hr, hM, clientUnavailable, hu]
              · left
                exact set_data_other s now _ hk
  | verifyOtp now number otp =>
    rcases verifyOtp_store s now number otp with h | h
    · left
      simp [step, h]
    · by_cases hk : k = number.getD ""
      · right; left
        simp [step, h, hk, del_data_self]
      · left
        simp [step, h, del_data_other s hk]
  | checkData now =>
    simp only [step, NodeCache.checkData]
    cases hd : s.data k with
    | none => left; rfl
    | some w =>
      simp only []
      split_ifs
      · right; left; rfl
      · left; rfl

theorem run_cons (s : NodeCache) (q : Request) (qs : List Request) :
    run s (q :: qs) = run (step s q) qs := rfl

/-- Entries of a store that started well-formed stay well-formed: the key and
the code are non-empty and the expiry timestamp is set. -/
theorem run_entries (requests : List Request) : ∀ s : NodeCache,
    (∀ k w, s.data k = some w → k ≠ "" ∧ w.v ≠ "" ∧ w.t ≠ 0) →
    ∀ k w, (run s requests).data k = some w → k ≠ "" ∧ w.v ≠ "" ∧ w.t ≠ 0 := by
  induction requests with
  | nil => intro s hs; exact hs
  | cons q qs ih =>
    intro s hs
    rw [run_cons]
    apply ih
    intro k w h
    rcases step_data s q k with h1 | h1 | ⟨_, hk, now, random, h1⟩
    · exact hs k w (h1 ▸ h)
    · rw [h1] at h; cases h
    · rw [h1] at h
      cases h
      exact ⟨hk, generateOtp_ne_empty random, by simp⟩

theorem run_empty_entries (requests : List Request) (k : String) (w : Wrapped)
    (h : (run NodeCache.empty requests).data k = some w) : k ≠ "" ∧ w.v ≠ "" ∧ w.t ≠ 0 :=
  run_entries requests NodeCache.empty (by intro k w h; cases h) k w h

/-- Without a new issue for `r`, the entry of `r` can only disappear: its
expiry timestamp never changes. -/
theorem run_entry_expiry (r : String) (T : Nat) (requests : List Request) :
    (∀ q ∈ requests, Request.issuesFor r q = false) → ∀ s : NodeCache,
    (∀ w, s.data r = some w → w.t = T) →
    ∀ w, (run s requests).data r = some w → w.t = T := by
  induction requests with
  | nil => intro _ s hs; exact hs
  | cons q qs ih =>
    intro hno s hs
    rw [run_cons]
    apply ih (fun q' hq' => hno q' (List.mem_cons_of_mem _ hq'))
    intro w h
    rcases step_data s q r with h1 | h1 | ⟨hi, _⟩
    · exact hs w (h1 ▸ h)
    · rw [h1] at h; cases h
    · rw [hno q (List.mem_cons_self _ _)] at hi
      cases hi

theorem roundHalfEven_intCast (N : ℤ) : roundHalfEven (N : ℚ) = N := by
  simp [roundHalfEven]

theorem fl_eval {q : ℚ} (hq : 0 < q) (k : ℤ) (hk : -1022 ≤ k) (h1 : 2 ^ k ≤ q)
    (h2 : q < 2 ^ (k + 1)) (N : ℤ) (h : q = N * 2 ^ (k - 52)) : fl q = q := by
  rw [fl_of_pos hq]
  unfold flPos
  rw [ulpExp_eq hq hk h1 h2]
  have hu := two_zpow_pos (k - 52)
  have hdiv : q / 2 ^ (k - 52) = (N : ℚ) := by
    rw [div_eq_iff (ne_of_gt hu)]
    exact h
  rw [hdiv, roundHalfEven_intCast]
  exact h.symm

theorem isDouble_half : isDouble (1 / 2) :=
  fl_eval (by norm_num) (-1) (by norm_num) (by norm_num) (by norm_num) (2 ^ 52) (by norm_num)

theorem generateOtp_zero : generateOtp 0 = "100000" := by
  have h1 : fl (0 * 900000) = 0 := by norm_num [fl]
  have h2 : fl (100000 : ℚ) = 100000 :=
    fl_eval (by norm_num) 16 (by norm_num) (by norm_num) (by norm_num) (100000 * 2 ^ 36)
      (by norm_num)
  unfold generateOtp
  rw [h1, add_zero, h2]
  have : ⌊(100000 : ℚ)⌋ = 100000 := by norm_num
  rw [this]
  decide

theorem generateOtp_small : generateOtp (1 / 2 ^ 20) = "100000" := by
  have h1 : fl (1 / 2 ^ 20 * 900000) = 28125 / 2 ^ 15 := by
    have : (1 / 2 ^ 20 * 900000 : ℚ) = 28125 / 2 ^ 15 := by norm_num
    rw [this]
    exact fl_eval (by norm_num) (-1) (by norm_num) (by norm_num) (by norm_num) (28125 * 2 ^ 38)
      (by norm_num)
  have h2 : fl (100000 + 28125 / 2 ^ 15 : ℚ) = 100000 + 28125 / 2 ^ 15 :=
    fl_eval (by norm_num) 16 (by norm_num) (by norm_num) (by norm_num)
      ((100000 * 2 ^ 15 + 28125) * 2 ^ 21) (by norm_num)
  unfold generateOtp
  rw [h1, h2]
  have : ⌊(100000 + 28125 / 2 ^ 15 : ℚ)⌋ = 100000 := by
    rw [Int.floor_eq_iff]
    constructor <;> norm_num
  rw [this]
  decide

theorem generateOtp_half : generateOtp (1 / 2) = "550000" := by
  have h1 : fl (1 / 2 * 900000) = 450000 := by
    have : (1 / 2 * 900000 : ℚ) = 450000 := by norm_num
    rw [this]
    exact fl_eval (by norm_num) 18 (by norm_num) (by norm_num) (by norm_num) (450000 * 2 ^ 34)
      (by norm_num)
  have h2 : fl (550000 : ℚ) = 550000 :=
    fl_eval (by norm_num) 19 (by norm_num) (by norm_num) (by norm_num) (550000 * 2 ^ 33)
      (by norm_num)
  unfold generateOtp
  rw [h1]
  have h3 : (100000 + 450000 : ℚ) = 550000 := by norm_num
  rw [h3, h2]
  have : ⌊(550000 : ℚ)⌋ = 550000 := by norm_num
  rw [this]
  decide

theorem verifyMany_mismatch {s : NodeCache} {r : String} {w : Wrapped} (hs : s.data r = some w)
    (hr : r ≠ "") (hv : w.v ≠ "") : ∀ attempts : List (Nat × String),
    (∀ a ∈ attempts, a.1 ≤ w.t ∧ a.2 ≠ "" ∧ a.2 ≠ w.v) →
    verifyMany s r attempts = (attempts.map fun _ => otpInvalid, s) := by
  intro attempts
  induction attempts with
  | nil => intro _; rfl
  | cons a rest ih =>
    intro h
    obtain ⟨ha1, ha2, ha3⟩ := h a (List.mem_cons_self _ _)
    have hl : ¬ (w.t ≠ 0 ∧ w.t < a.1) := by
      simp only [not_and, not_lt]
      intro _
      exact ha1
    have h1 : verifyOtp s a.1 (some r) (some a.2) = (otpInvalid, s) := by
      rw [verifyOtp_some a.1 hr ha2]
      exact verifyStored_mismatch hs hl hv (Ne.symm ha3)
    have h2 := ih (fun b hb => h b (List.mem_cons_of_mem _ hb))
    obtain ⟨t, c⟩ := a
    simp only [verifyMany] at h1 ⊢
    rw [h1]
    simp only []
    rw [h2]
    rfl

/-! ## Claims -/

/-- C1: for a non-empty recipient `r` and any prior store, with an authenticated
client and a successful dispatch, `/send-otp` answers 200 with a code `c`; a
`/verify-otp(r, c)` at any time `t1` up to 300 seconds after the issue answers
Success (HTTP 200) and deletes the record, and a second `/verify-otp(r, c)`, at
any time, answers NotFound (HTTP 400 with the "OTP not found" error). -/
theorem C1_issue_verify_single_use (env : Env) (sock : WASocket) (u : String) (s : NodeCache)
    (now : Nat) (random : ℚ) (r : String) (t1 t2 : Nat)
    (hr : r ≠ "") (hM : env.Matrix = some sock) (hu : sock.user = some u)
    (hd : dispatchOtp env sock r (generateOtp random) = Except.ok ())
    (ht : t1 ≤ now + 300000) :
    (sendOtp env s now random (some r)).1 = otpSent r (generateOtp random) ∧
    (sendOtp env s now random (some r)).1.status = 200 ∧
    (verifyOtp (sendOtp env s now random (some r)).2 t1 (some r)
        (some (generateOtp random))).1 = otpVerified ∧
    otpVerified.status = 200 ∧
    (verifyOtp (sendOtp env s now random (some r)).2 t1 (some r)
        (some (generateOtp random))).2.data r = none ∧
    (verifyOtp (verifyOtp (sendOtp env s now random (some r)).2 t1 (some r)
        (some (generateOtp random))).2 t2 (some r) (some (generateOtp random))).1 =
      otpNotFound ∧
    otpNotFound = ⟨400, [("error", "OTP not found. Please request OTP first.")]⟩ := by
  have hc := generateOtp_ne_empty random
  have hsend := sendOtp_issue s now random hr hM hu
  rw [hd] at hsend
  have hdata := set_data_self s now r (generateOtp random)
  have hlive : ¬ ((⟨now + 300000, generateOtp random⟩ : Wrapped).t ≠ 0 ∧
      (⟨now + 300000, generateOtp random⟩ : Wrapped).t < t1) := by
    simp only [not_and, not_lt]
    intro _
    exact ht
  have hv1 : verifyOtp (s.set now r (generateOtp random)) t1 (some r)
      (some (generateOtp random)) = (otpVerified, (s.set now r (generateOtp random)).del r) := by
    rw [verifyOtp_some t1 hr hc]
    exact verifyStored_match hdata hlive hc
  have hv2 : verifyOtp ((s.set now r (generateOtp random)).del r) t2 (some r)
      (some (generateOtp random)) = (otpNotFound, (s.set now r (generateOtp random)).del r) := by
    rw [verifyOtp_some t2 hr hc]
    exact verifyStored_absent t2 _ (del_data_self _ _)
  rw [hsend]
  refine ⟨rfl, rfl, ?_, rfl, ?_, ?_, rfl⟩
  · rw [hv1]
  · rw [hv1]
    exact del_data_self _ _
  · rw [hv1, hv2]

/-- Witness for C1 at `r = 94750000000` on an empty store. -/
theorem C1_issue_verify_single_use_witness :
    (verifyOtp (sendOtp okEnv NodeCache.empty 0 (1 / 2) (some "94750000000")).2 1000
        (some "94750000000") (some (generateOtp (1 / 2)))).1 = otpVerified ∧
    (verifyOtp (verifyOtp (sendOtp okEnv NodeCache.empty 0 (1 / 2) (some "94750000000")).2 1000
        (some "94750000000") (some (generateOtp (1 / 2)))).2 2000 (some "94750000000")
        (some (generateOtp (1 / 2)))).1 = otpNotFound :=
  have h := C1_issue_verify_single_use okEnv okSocket "bot" NodeCache.empty 0 (1 / 2)
    "94750000000" 1000 2000 (by decide) rfl rfl rfl (by decide)
  ⟨h.2.2.1, h.2.2.2.2.2.1⟩

/-- C2: in a store reached from the empty cache by any sequence of requests, if
`r` holds a record with code `code` and expiry `t`, then any finite list of
`/verify-otp(r, c)` attempts made before the expiry with non-empty candidates
`c` different from `code` all answer Mismatch and leave the store unchanged,
and a following `/verify-otp(r, code)` before the expiry answers Success. -/
theorem C2_mismatch_keeps_record (requests : List Request) (r code : String) (t : Nat)
    (attempts : List (Nat × String)) (now : Nat)
    (hs : (run NodeCache.empty requests).data r = some ⟨t, code⟩)
    (hatt : ∀ a ∈ attempts, a.1 ≤ t ∧ a.2 ≠ "" ∧ a.2 ≠ code)
    (hnow : now ≤ t) :
    (verifyMany (run NodeCache.empty requests) r attempts).1 =
      attempts.map (fun _ => otpInvalid) ∧
    (verifyMany (run NodeCache.empty requests) r attempts).2 = run NodeCache.empty requests ∧
    ((verifyMany (run NodeCache.empty requests) r attempts).2.data r = some ⟨t, code⟩) ∧
    (verifyOtp (verifyMany (run NodeCache.empty requests) r attempts).2 now (some r)
      (some code)).1 = otpVerified := by
  obtain ⟨hr, hv, _⟩ := run_empty_entries requests r _ hs
  have hm := verifyMany_mismatch hs hr hv attempts hatt
  rw [hm]
  refine ⟨rfl, rfl, hs, ?_⟩
  have hl : ¬ ((⟨t, code⟩ : Wrapped).t ≠ 0 ∧ (⟨t, code⟩ : Wrapped).t < now) := by
    simp only [not_and, not_lt]
    intro _
    exact hnow
  simp only [verifyOtp_some now hr hv]
  rw [verifyStored_match hs hl hv]

/-- Witness for C2: after one `/send-otp` for 94750000000 issuing 550000, two
wrong candidates are rejected and the right code still verifies. -/
theorem C2_mismatch_keeps_record_witness :
    (verifyMany (run NodeCache.empty [Request.sendOtp okEnv 0 (1 / 2) (some "94750000000")])
      "94750000000" [(1000, "000000"), (2000, "123456")]).1 = [otpInvalid, otpInvalid] ∧
    (verifyOtp (verifyMany (run NodeCache.empty
        [Request.sendOtp okEnv 0 (1 / 2) (some "94750000000")])
      "94750000000" [(1000, "000000"), (2000, "123456")]).2 3000 (some "94750000000")
      (some "550000")).1 = otpVerified :=
  have h := C2_mismatch_keeps_record [Request.sendOtp okEnv 0 (1 / 2) (some "94750000000")]
    "94750000000" "550000" 300000 [(1000, "000000"), (2000, "123456")] 3000
    (by
      have hi := @sendOtp_issue okEnv okSocket "bot" "94750000000" NodeCache.empty 0 (1 / 2)
        (by decide) rfl rfl
      simp only [run, List.foldl, step, hi, generateOtp_half]
      exact set_data_self _ _ _ _)
    (by decide) (by decide)
  ⟨h.1, h.2.2.2⟩

/-- C3 as stated fails: two successive issues can return the same code (here
the random values 0 and 2^-20 both give 100000), and then verifying the first
code answers Success. -/
theorem C3_counterexample :
    (sendOtp okEnv NodeCache.empty 0 0 (some "94750000000")).1 =
      otpSent "94750000000" "100000" ∧
    (sendOtp okEnv (sendOtp okEnv NodeCache.empty 0 0 (some "94750000000")).2 1000
        (1 / 2 ^ 20) (some "94750000000")).1 = otpSent "94750000000" "100000" ∧
    (verifyOtp (sendOtp okEnv (sendOtp okEnv NodeCache.empty 0 0 (some "94750000000")).2 1000
        (1 / 2 ^ 20) (some "94750000000")).2 2000 (some "94750000000") (some "100000")).1 =
      otpVerified := by
  have h1 := @sendOtp_issue okEnv okSocket "bot" "94750000000" NodeCache.empty 0 0
    (by decide) rfl rfl
  have h2 := @sendOtp_issue okEnv okSocket "bot" "94750000000"
    (NodeCache.empty.set 0 "94750000000" "100000") 1000 (1 / 2 ^ 20) (by decide) rfl rfl
  rw [generateOtp_zero] at h1
  rw [generateOtp_small] at h2
  rw [h1]
  simp only []
  rw [h2]
  simp only []
  refine ⟨rfl, rfl, ?_⟩
  rw [verifyOtp_some 2000 (by decide) (by decide)]
  have hd := set_data_self (NodeCache.empty.set 0 "94750000000" "100000") 1000
    "94750000000" "100000"
  rw [verifyStored_match hd (by decide) (by decide)]

/-- C3 (amended): after two successive issues for `r` with different codes `c1`
then `c2`, the store holds exactly the second record for `r`;
`/verify-otp(r, c1)` answers Mismatch or NotFound at any time, never Success,
and before the expiry of the second issue it answers Mismatch and leaves the
store unchanged; `/verify-otp(r, c2)` before that expiry answers Success. -/
theorem C3_second_issue_overwrites (env1 env2 : Env) (sock1 sock2 : WASocket) (u1 u2 : String)
    (s : NodeCache) (t1 t2 : Nat) (x1 x2 : ℚ) (r : String) (now later : Nat)
    (hr : r ≠ "") (hM1 : env1.Matrix = some sock1) (hu1 : sock1.user = some u1)
    (hM2 : env2.Matrix = some sock2) (hu2 : sock2.user = some u2)
    (hne : generateOtp x1 ≠ generateOtp x2) (hnow : now ≤ t2 + 300000) :
    (sendOtp env2 (sendOtp env1 s t1 x1 (some r)).2 t2 x2 (some r)).2.data r =
      some ⟨t2 + 300000, generateOtp x2⟩ ∧
    ((verifyOtp (sendOtp env2 (sendOtp env1 s t1 x1 (some r)).2 t2 x2 (some r)).2 later
        (some r) (some (generateOtp x1))).1 = otpInvalid ∨
     (verifyOtp (sendOtp env2 (sendOtp env1 s t1 x1 (some r)).2 t2 x2 (some r)).2 later
        (some r) (some (generateOtp x1))).1 = otpNotFound) ∧
    (verifyOtp (sendOtp env2 (sendOtp env1 s t1 x1 (some r)).2 t2 x2 (some r)).2 later
        (some r) (some (generateOtp x1))).1 ≠ otpVerified ∧
    verifyOtp (sendOtp env2 (sendOtp env1 s t1 x1 (some r)).2 t2 x2 (some r)).2 now
        (some r) (some (generateOtp x1)) =
      (otpInvalid, (sendOtp env2 (sendOtp env1 s t1 x1 (some r)).2 t2 x2 (some r)).2) ∧
    (verifyOtp (sendOtp env2 (sendOtp env1 s t1 x1 (some r)).2 t2 x2 (some r)).2 now
        (some r) (some (generateOtp x2))).1 = otpVerified := by
  have h1 := sendOtp_issue s t1 x1 hr hM1 hu1
  rw [h1]
  simp only []
  have h2 := sendOtp_issue (s.set t1 r (generateOtp x1)) t2 x2 hr hM2 hu2
  rw [h2]
  simp only []
  have hd := set_data_self (s.set t1 r (generateOtp x1)) t2 r (generateOtp x2)
  have hc1 := generateOtp_ne_empty x1
  have hc2 := generateOtp_ne_empty x2
  have hl : ¬ ((⟨t2 + 300000, generateOtp x2⟩ : Wrapped).t ≠ 0 ∧
      (⟨t2 + 300000, generateOtp x2⟩ : Wrapped).t < now) := by
    simp only [not_and, not_lt]
    intro _
    exact hnow
  have hlater : (verifyOtp ((s.set t1 r (generateOtp x1)).set t2 r (generateOtp x2)) later
        (some r) (some (generateOtp x1))).1 = otpInvalid ∨
      (verifyOtp ((s.set t1 r (generateOtp x1)).set t2 r (generateOtp x2)) later
        (some r) (some (generateOtp x1))).1 = otpNotFound := by
    rw [verifyOtp_some later hr hc1]
    by_cases he : (⟨t2 + 300000, generateOtp x2⟩ : Wrapped).t ≠ 0 ∧
        (⟨t2 + 300000, generateOtp x2⟩ : Wrapped).t < later
    · right
      rw [verifyStored_expired _ hd he]
    · left
      rw [verifyStored_mismatch hd he hc2 (Ne.symm hne)]
  refine ⟨hd, hlater, ?_, ?_, ?_⟩
  · rcases hlater with h | h <;> rw [h] <;> decide
  · rw [verifyOtp_some now hr hc1]
    exact verifyStored_mismatch hd hl hc2 (Ne.symm hne)
  · rw [verifyOtp_some now hr hc2]
    rw [verifyStored_match hd hl hc2]

/-- Witness for C3 (amended): issues with random values 0 and 1/2 give the
codes 100000 and 550000. -/
theorem C3_second_issue_overwrites_witness :
    (verifyOtp (sendOtp okEnv (sendOtp okEnv NodeCache.empty 0 0 (some "94750000000")).2 1000
        (1 / 2) (some "94750000000")).2 2000 (some "94750000000") (some (generateOtp 0))).1 ≠
      otpVerified ∧
    (verifyOtp (sendOtp okEnv (sendOtp okEnv NodeCache.empty 0 0 (some "94750000000")).2 1000
        (1 / 2) (some "94750000000")).2 2000 (some "94750000000")
        (some (generateOtp (1 / 2)))).1 = otpVerified :=
  have h := C3_second_issue_overwrites okEnv okEnv okSocket okSocket "bot" "bot" NodeCache.empty
    0 1000 0 (1 / 2) "94750000000" 2000 2000 (by decide) rfl rfl rfl rfl
    (by rw [generateOtp_zero, generateOtp_half]; decide) (by decide)
  ⟨h.2.2.1, h.2.2.2.2⟩

/-- C4: if a code is issued for `r` at time `t0` (milliseconds) and no later
request issues for `r` again, then after any sequence of other requests and
cache sweeps (possibly none) a lookup of `r` more than 300 seconds after `t0`
finds nothing: the verification of lines 203-222 answers NotFound for every
candidate `x`, the issued code included, and so does `/verify-otp` for every
non-empty `x`. -/
theorem C4_unreadable_after_ttl (env : Env) (sock : WASocket) (u : String) (s : NodeCache)
    (t0 : Nat) (random : ℚ) (r : String) (requests : List Request) (now : Nat) (x : String)
    (hr : r ≠ "") (hM : env.Matrix = some sock) (hu : sock.user = some u)
    (hno : ∀ q ∈ requests, Request.issuesFor r q = false)
    (hnow : t0 + stdTTL * 1000 < now) :
    ((run (sendOtp env s t0 random (some r)).2 requests).get now r).1 = none ∧
    (verifyStored (run (sendOtp env s t0 random (some r)).2 requests) now r x).1 = otpNotFound ∧
    (verifyStored (run (sendOtp env s t0 random (some r)).2 requests) now r
      (generateOtp random)).1 = otpNotFound ∧
    (x ≠ "" → (verifyOtp (run (sendOtp env s t0 random (some r)).2 requests) now (some r)
      (some x)).1 = otpNotFound) := by
  have h1 := sendOtp_issue s t0 random hr hM hu
  rw [h1]
  simp only []
  have hinv := run_entry_expiry r (t0 + 300000) requests hno (s.set t0 r (generateOtp random))
    (by
      intro w hw
      rw [set_data_self] at hw
      cases hw
      rfl)
  have hnow2 : t0 + 300000 < now := by simpa [stdTTL] using hnow
  have key : ∀ y, verifyStored (run (s.set t0 r (generateOtp random)) requests) now r y =
      (otpNotFound, (verifyStored (run (s.set t0 r (generateOtp random)) requests) now r y).2) ∧
      ((run (s.set t0 r (generateOtp random)) requests).get now r).1 = none := by
    intro y
    cases hd : (run (s.set t0 r (generateOtp random)) requests).data r with
    | none =>
      rw [verifyStored_absent now y hd, get_absent now hd]
      exact ⟨rfl, rfl⟩
    | some w =>
      have ht := hinv w hd
      have he : w.t ≠ 0 ∧ w.t < now := by omega
      rw [verifyStored_expired y hd he, get_expired hd he]
      exact ⟨rfl, rfl⟩
  refine ⟨(key x).2, ?_, ?_, ?_⟩
  · rw [(key x).1]
  · rw [(key _).1]
  · intro hx
    rw [verifyOtp_some now hr hx, (key x).1]

/-- Witness for C4: a code issued at time 0 and looked up at 300001 ms, with a
sweep and a request for another number in between. -/
theorem C4_unreadable_after_ttl_witness :
    (verifyStored (run (sendOtp okEnv NodeCache.empty 0 (1 / 2) (some "94750000000")).2
      [Request.checkData 1000, Request.sendOtp okEnv 2000 0 (some "94711111111")]) 300001
      "94750000000" (generateOtp (1 / 2))).1 = otpNotFound :=
  (C4_unreadable_after_ttl okEnv okSocket "bot" NodeCache.empty 0 (1 / 2) "94750000000"
    [Request.checkData 1000, Request.sendOtp okEnv 2000 0 (some "94711111111")] 300001 "550000"
    (by decide) rfl rfl (by simp [Request.issuesFor]) (by decide)).2.2.1

/-- C5: `/send-otp` answers InvalidInput (HTTP 400 with an `error` field) when
`number` is missing or empty, whatever the client state; otherwise it answers
ClientUnavailable (HTTP 500 with an `error` field) when there is no client
handle or the handle has no authenticated user; in both cases the store is
returned unchanged. -/
theorem C5_send_otp_rejections (env : Env) (s : NodeCache) (now : Nat) (random : ℚ)
    (number : Option String) :
    (truthy number = false → sendOtp env s now random number = (numberRequired, s)) ∧
    (truthy number = true → clientUnavailable env.Matrix = true →
      sendOtp env s now random number = (notConnected, s)) ∧
    numberRequired.status = 400 ∧ (numberRequired.field "error").isSome = true ∧
    notConnected.status = 500 ∧ (notConnected.field "error").isSome = true :=
  ⟨sendOtp_reject_number env s now random, sendOtp_reject_client env s now random,
    rfl, rfl, rfl, rfl⟩

/-- Witness for C5: `/send-otp?number=94750000000` with no active session gives
500 and leaves a live code for that number in place. -/
theorem C5_send_otp_rejections_witness :
    sendOtp noSessionEnv (NodeCache.empty.set 0 "94750000000" "123456") 1000 (1 / 2)
      (some "94750000000") =
      (⟨500, [("error", "WhatsApp bot is not connected!")]⟩,
        NodeCache.empty.set 0 "94750000000" "123456") ∧
    sendOtp okEnv (NodeCache.empty.set 0 "94750000000" "123456") 1000 (1 / 2) (some "") =
      (⟨400, [("error", "Phone number is required!")]⟩,
        NodeCache.empty.set 0 "94750000000" "123456") :=
  ⟨(C5_send_otp_rejections noSessionEnv (NodeCache.empty.set 0 "94750000000" "123456") 1000
      (1 / 2) (some "94750000000")).2.1 rfl rfl,
   (C5_send_otp_rejections okEnv (NodeCache.empty.set 0 "94750000000" "123456") 1000
      (1 / 2) (some "")).1 rfl⟩

/-- C6: for a non-empty number and an authenticated client, if building or
relaying the message throws `e`, `/send-otp` answers HTTP 500 with an `error`
field and a `details` field equal to `e.message`, and the record issued for the
number stays in the store: `/verify-otp` with the generated code, at any time
up to 300 seconds after the issue, answers Success. -/
theorem C6_delivery_failed_no_rollback (env : Env) (sock : WASocket) (u : String)
    (s : NodeCache) (now : Nat) (random : ℚ) (r : String) (e : JsError) (t1 : Nat)
    (hr : r ≠ "") (hM : env.Matrix = some sock) (hu : sock.user = some u)
    (hd : dispatchOtp env sock r (generateOtp random) = Except.error e)
    (ht : t1 ≤ now + 300000) :
    (sendOtp env s now random (some r)).1.status = 500 ∧
    ((sendOtp env s now random (some r)).1.field "error").isSome = true ∧
    (sendOtp env s now random (some r)).1.field "details" = some e.message ∧
    (sendOtp env s now random (some r)).2.data r = some ⟨now + 300000, generateOtp random⟩ ∧
    (verifyOtp (sendOtp env s now random (some r)).2 t1 (some r)
      (some (generateOtp random))).1 = otpVerified := by
  have hsend := sendOtp_issue s now random hr hM hu
  rw [hd] at hsend
  rw [hsend]
  have hdata := set_data_self s now r (generateOtp random)
  have hc := generateOtp_ne_empty random
  have hlive : ¬ ((⟨now + 300000, generateOtp random⟩ : Wrapped).t ≠ 0 ∧
      (⟨now + 300000, generateOtp random⟩ : Wrapped).t < t1) := by
    simp only [not_and, not_lt]
    intro _
    exact ht
  refine ⟨rfl, rfl, ?_, hdata, ?_⟩
  · simp [otpSendFailed, Response.field, List.lookup]
  · simp only []
    rw [verifyOtp_some t1 hr hc, verifyStored_match hdata hlive hc]

/-- Witness for C6: the relay throws "Connection Closed". -/
theorem C6_delivery_failed_no_rollback_witness :
    (sendOtp (failingEnv ⟨"Connection Closed"⟩) NodeCache.empty 0 (1 / 2)
      (some "94750000000")).1.field "details" = some "Connection Closed" ∧
    (verifyOtp (sendOtp (failingEnv ⟨"Connection Closed"⟩) NodeCache.empty 0 (1 / 2)
      (some "94750000000")).2 1000 (some "94750000000") (some (generateOtp (1 / 2)))).1 =
      otpVerified :=
  have h := C6_delivery_failed_no_rollback (failingEnv ⟨"Connection Closed"⟩)
    (failingSocket ⟨"Connection Closed"⟩) "bot" NodeCache.empty 0 (1 / 2) "94750000000"
    ⟨"Connection Closed"⟩ 1000 (by decide) rfl rfl rfl (by decide)
  ⟨h.2.2.1, h.2.2.2.2⟩

/-- C7 as stated fails: the NotFound and the Mismatch outcomes of `/verify-otp`
carry the same response code, HTTP 400. -/
theorem C7_counterexample :
    (verifyOtp NodeCache.empty 1000 (some "94750000000") (some "123456")).1 = otpNotFound ∧
    (verifyOtp (NodeCache.empty.set 0 "94750000000" "654321") 1000 (some "94750000000")
      (some "123456")).1 = otpInvalid ∧
    otpNotFound.status = 400 ∧ otpInvalid.status = 400 := by
  refine ⟨?_, ?_, rfl, rfl⟩
  · rw [verifyOtp_some 1000 (by decide) (by decide)]
    rw [verifyStored_absent 1000 _ rfl]
  · rw [verifyOtp_some 1000 (by decide) (by decide)]
    rw [verifyStored_mismatch (set_data_self _ _ _ _) (by decide) (by decide) (by decide)]

/-- C7 (amended): `/verify-otp` answers InvalidInput (HTTP 400) and leaves the
store unchanged when `number` or `otp` is missing or empty; otherwise its
response is fixed by the store lookup: NotFound when no live non-empty code is
found, Success when the live code equals the candidate, Mismatch when it
differs. The three responses are pairwise distinct, with HTTP status 400 for
NotFound, 400 for Mismatch and 200 for Success; NotFound and Mismatch differ in
their `error` text. With nothing issued the answer is 400 with the "OTP not
found" error. -/
theorem C7_verify_otp_outcomes (s : NodeCache) (now : Nat) (number otp : Option String) :
    (truthy number = false → verifyOtp s now number otp = (numberRequired, s)) ∧
    (truthy number = true → truthy otp = false →
      verifyOtp s now number otp = (otpRequired, s)) ∧
    numberRequired.status = 400 ∧ otpRequired.status = 400 ∧
    (truthy number = true → truthy otp = true →
      ((s.get now (number.getD "")).1 = none →
        (verifyOtp s now number otp).1 = otpNotFound) ∧
      (∀ stored, (s.get now (number.getD "")).1 = some stored →
        (verifyOtp s now number otp).1 =
          if stored = "" then otpNotFound
          else if stored = otp.getD "" then otpVerified else otpInvalid)) ∧
    otpNotFound ≠ otpInvalid ∧ otpNotFound ≠ otpVerified ∧ otpInvalid ≠ otpVerified ∧
    otpNotFound.status = 400 ∧ otpInvalid.status = 400 ∧ otpVerified.status = 200 ∧
    otpNotFound.field "error" ≠ otpInvalid.field "error" ∧
    (∀ r x, r ≠ "" → x ≠ "" → verifyOtp NodeCache.empty now (some r) (some x) =
      (⟨400, [("error", "OTP not found. Please request OTP first.")]⟩, NodeCache.empty)) := by
  refine ⟨?_, ?_, rfl, rfl, ?_, by decide, by decide, by decide, rfl, rfl, rfl, by decide, ?_⟩
  · intro h
    simp [verifyOtp, h]
  · intro h1 h2
    simp [verifyOtp, h1, h2]
  · intro h1 h2
    have hv : verifyOtp s now number otp =
        verifyStored s now (number.getD "") (otp.getD "") := by
      simp [verifyOtp, h1, h2]
    rw [hv]
    unfold verifyStored
    constructor
    · intro hg
      rcases hget : s.get now (number.getD "") with ⟨o, s2⟩
      rw [hget] at hg
      simp only at hg
      subst hg
      rfl
    · intro stored hg
      rcases hget : s.get now (number.getD "") with ⟨o, s2⟩
      rw [hget] at hg
      simp only at hg
      subst hg
      simp only []
      split_ifs <;> rfl
  · intro r x hr hx
    rw [verifyOtp_some now hr hx]
    exact verifyStored_absent now x rfl

/-- Witness for C7 (amended): `/verify-otp?number=94750000000&otp=123456` with
nothing issued. -/
theorem C7_verify_otp_outcomes_witness :
    verifyOtp NodeCache.empty 1000 (some "94750000000") (some "123456") =
      (⟨400, [("error", "OTP not found. Please request OTP first.")]⟩, NodeCache.empty) ∧
    verifyOtp NodeCache.empty 1000 (some "94750000000") none = (otpRequired, NodeCache.empty) :=
  ⟨(C7_verify_otp_outcomes NodeCache.empty 1000 (some "94750000000") (some "123456")).2.2.2.2.2.2.2.2.2.2.2.2
      "94750000000" "123456" (by decide) (by decide),
   (C7_verify_otp_outcomes NodeCache.empty 1000 (some "94750000000") none).2.1 rfl rfl⟩

/-- C8 fails on the code: when the dispatch of `/send-message` throws, the
response is HTTP 500 with an `error` field only; the thrown error's message is
not carried in a `details` field (the `/send-otp` handler does carry it). -/
theorem C8_send_message_drops_details :
    sendMessage (failingEnv ⟨"Connection Closed"⟩) (some "94750000000") (some "hello") =
      ⟨500, [("error", "Failed to send message")]⟩ ∧
    (sendMessage (failingEnv ⟨"Connection Closed"⟩) (some "94750000000")
      (some "hello")).field "details" = none ∧
    (sendOtp (failingEnv ⟨"Connection Closed"⟩) NodeCache.empty 0 0
      (some "94750000000")).1.field "details" = some "Connection Closed" := by
  refine ⟨by decide, by decide, ?_⟩
  have h := @sendOtp_issue (failingEnv ⟨"Connection Closed"⟩)
    (failingSocket ⟨"Connection Closed"⟩) "bot" "94750000000" NodeCache.empty 0 0
    (by decide) rfl rfl
  rw [h]
  rfl

/-- Whatever error the dispatch of `/send-message` throws, the response is the
same fixed object without a `details` field. -/
theorem sendMessage_failure (env : Env) (sock : WASocket) (u r m : String) (e : JsError)
    (hr : r ≠ "") (hm : m ≠ "") (hM : env.Matrix = some sock) (hu : sock.user = some u)
    (hd : sock.sendMessage (r ++ "@s.whatsapp.net") m = Except.error e) :
    sendMessage env (some r) (some m) = messageSendFailed ∧
    messageSendFailed.field "details" = none := by
  refine ⟨?_, by decide⟩
  simp [sendMessage, truthy, hr, hm, hM, hu, hd]

/-- C9: for every double `x` in `[0, 1)` returned by the random source, the
generated code is the decimal rendering of the integer
`n = floor(100000 + x * 900000)` (in double arithmetic) with
`100000 ≤ n ≤ 999999`: it has exactly 6 characters, all decimal digits, and no
leading zero; and on the 200 path of `/send-otp` the `otp` field of the response
equals the string stored for the number. -/
theorem C9_generated_code_shape (x : ℚ) (hx : isDouble x) (h0 : 0 ≤ x) (h1 : x < 1) :
    (∃ n : ℕ, ⌊fl (100000 + fl (x * 900000))⌋ = (n : ℤ) ∧ 100000 ≤ n ∧ n ≤ 999999 ∧
      generateOtp x = Nat.repr n) ∧
    (generateOtp x).length = 6 ∧
    (∀ c ∈ (generateOtp x).data, c.isDigit = true) ∧
    (generateOtp x).data.head? ≠ some '0' ∧
    (∀ (env : Env) (sock : WASocket) (u : String) (s : NodeCache) (now : Nat) (r : String),
      r ≠ "" → env.Matrix = some sock → sock.user = some u →
      dispatchOtp env sock r (generateOtp x) = Except.ok () →
      (sendOtp env s now x (some r)).1.status = 200 ∧
      (sendOtp env s now x (some r)).1.field "otp" = some (generateOtp x) ∧
      (sendOtp env s now x (some r)).1.field "otp" =
        ((sendOtp env s now x (some r)).2.data r).map Wrapped.v) := by
  obtain ⟨n, hn0, hn1, hfloor, hrepr, hdata⟩ := generateOtp_shape hx h0 h1
  refine ⟨⟨n, hfloor, hn0, hn1, hrepr⟩, ?_, ?_, ?_, ?_⟩
  · simp [String.length, hdata]
  · intro c hc
    rw [hdata] at hc
    simp only [List.mem_cons, List.mem_singleton, List.not_mem_nil, or_false] at hc
    rcases hc with h | h | h | h | h | h <;> rw [h] <;> apply digitChar_isDigit <;> omega
  · rw [hdata]
    simp only [List.head?_cons, ne_eq, Option.some.injEq]
    exact digitChar_ne_zero _ (by omega) (by omega)
  · intro env sock u s now r hr hM hu hd
    have hsend := sendOtp_issue s now x hr hM hu
    rw [hd] at hsend
    rw [hsend]
    simp only []
    rw [set_data_self]
    simp [otpSent, Response.field, List.lookup]

/-- Witness for C9 at `x = 1/2`, which gives the code 550000. -/
theorem C9_generated_code_shape_witness :
    isDouble (1 / 2) ∧ (generateOtp (1 / 2)).length = 6 ∧
    (sendOtp okEnv NodeCache.empty 0 (1 / 2) (some "94750000000")).1.field "otp" =
      some (generateOtp (1 / 2)) :=
  have h := C9_generated_code_shape (1 / 2) isDouble_half (by norm_num) (by norm_num)
  ⟨isDouble_half, h.2.1,
    (h.2.2.2.2 okEnv okSocket "bot" NodeCache.empty 0 "94750000000" (by decide) rfl rfl rfl).2.1⟩

/-- C10: for every `connection.update` event whose `close` carries its
`lastDisconnect` object (the library always sends the reason with a close): if
the status code of the disconnect reason is the logged-out code, no
reconnection timer is scheduled; for any other reason, a missing error, output
or status code included, exactly one timer is scheduled, a call of `start`
after 5000 ms; for events that are not `close`, no timer is scheduled. In every
one of these cases the callback completes without a thrown fault. -/
theorem C10_reconnect_policy (loggedOut : Nat) (initialConnection : Bool)
    (update : ConnectionUpdate) :
    (update.connection = some "close" → ∀ ld, update.lastDisconnect = some ld →
      (((ld.error.bind fun e => e.output).bind fun o => o.statusCode) = some loggedOut →
        timers (onConnectionUpdate loggedOut initialConnection update) = 0 ∧
        (onConnectionUpdate loggedOut initialConnection update).thrown = none) ∧
      (((ld.error.bind fun e => e.output).bind fun o => o.statusCode) ≠ some loggedOut →
        timers (onConnectionUpdate loggedOut initialConnection update) = 1 ∧
        reconnects 5000 (onConnectionUpdate loggedOut initialConnection update) = 1 ∧
        (onConnectionUpdate loggedOut initialConnection update).thrown = none)) ∧
    (update.connection ≠ some "close" →
      timers (onConnectionUpdate loggedOut initialConnection update) = 0 ∧
      (onConnectionUpdate loggedOut initialConnection update).thrown = none) := by
  constructor
  · intro hc ld hl
    constructor
    · intro hcode
      simp [onConnectionUpdate, hc, hl, hcode, timers]
    · intro hcode
      simp [onConnectionUpdate, hc, hl, hcode, timers, reconnects]
  · intro hc
    unfold onConnectionUpdate
    simp only [hc, if_false]
    split_ifs <;> simp [timers]

/-- Witness for C10 with logged-out code 401: a close with status 401 schedules
nothing, a close with status 428 and a close without an error each schedule one
timer of 5000 ms, and an open schedules nothing; none of them throws. -/
theorem C10_reconnect_policy_witness :
    (timers (onConnectionUpdate 401 true ⟨some "close", some ⟨some ⟨some ⟨some 401⟩⟩⟩⟩) = 0 ∧
      (onConnectionUpdate 401 true ⟨some "close", some ⟨some ⟨some ⟨some 401⟩⟩⟩⟩).thrown =
        none) ∧
    (timers (onConnectionUpdate 401 true ⟨some "close", some ⟨some ⟨some ⟨some 428⟩⟩⟩⟩) = 1 ∧
      reconnects 5000
        (onConnectionUpdate 401 true ⟨some "close", some ⟨some ⟨some ⟨some 428⟩⟩⟩⟩) = 1 ∧
      (onConnectionUpdate 401 true ⟨some "close", some ⟨some ⟨some ⟨some 428⟩⟩⟩⟩).thrown =
        none) ∧
    (timers (onConnectionUpdate 401 true ⟨some "close", some ⟨none⟩⟩) = 1 ∧
      reconnects 5000 (onConnectionUpdate 401 true ⟨some "close", some ⟨none⟩⟩) = 1 ∧
      (onConnectionUpdate 401 true ⟨some "close", some ⟨none⟩⟩).thrown = none) ∧
    (timers (onConnectionUpdate 401 true ⟨some "open", none⟩) = 0 ∧
      (onConnectionUpdate 401 true ⟨some "open", none⟩).thrown = none) :=
  ⟨((C10_reconnect_policy 401 true ⟨some "close", some ⟨some ⟨some ⟨some 401⟩⟩⟩⟩).1 rfl
      ⟨some ⟨some ⟨some 401⟩⟩⟩ rfl).1 rfl,
   ((C10_reconnect_policy 401 true ⟨some "close", some ⟨some ⟨some ⟨some 428⟩⟩⟩⟩).1 rfl
      ⟨some ⟨some ⟨some 428⟩⟩⟩ rfl).2 (by decide),
   ((C10_reconnect_policy 401 true ⟨some "close", some ⟨none⟩⟩).1 rfl ⟨none⟩ rfl).2
      (by decide),
   (C10_reconnect_policy 401 true ⟨some "open", none⟩).2 (by decide)⟩

end OtpBot
